import Mathlib

/-!
Verification of the pinterest-tool scrape/cache/score pipeline.

Shallow embedding of `src/server.js`: the pure scoring function `computeKD`,
the deduplication filter (`dedupe`), the result assembly, the cache-key
construction, the route-level parsing/clamping of the `scrolls` query
parameter, and an effect model of `pinterestSearch`'s cache-miss path
(browser operations as an environment of fallible steps, with an explicit
trace of attempted operations and explicit cache state).

Numbers are modelled as exact rationals (`ℚ`); JavaScript `Math.round` is
`jsRound` below.  Machine floating point artefacts are out of scope: at the
magnitudes the program works with, the computation is exact.
-/

namespace PinTool

/-- An extracted record, one per surviving pin anchor
(`src/server.js` lines 117-123). -/
structure Pin where
  pinId : String
  url : String
  image : String
  title : String
  saves : Nat
  deriving DecidableEq, Repr

/-- The assembled search result (`src/server.js` lines 131-137),
serialized as `{query, loadedPins, keywordDifficulty, lowCompetition, sample}`. -/
structure SearchResult where
  query : String
  loadedPins : Nat
  keywordDifficulty : Int
  lowCompetition : Bool
  sample : List Pin
  deriving DecidableEq, Repr

/-- JavaScript `Math.round`: round half away from zero; for the nonnegative
values arising here, `⌊x + 1/2⌋`. -/
def jsRound (q : ℚ) : Int := ⌊q + 1 / 2⌋

/-- The scorer `computeKD` (`src/server.js` lines 45-53):
take the first 20 pins, average their save counts (0 when empty),
`pop = min(1, avg/500)`, `comp = min(1, loadedCount/1000)`,
score = `Math.round((0.6*comp + 0.4*pop) * 100)`. -/
def computeKD (pins : List Pin) (loadedCount : Nat) : Int :=
  let top := pins.take 20
  let avgSaves : ℚ :=
    if top.length = 0 then 0 else ((top.map Pin.saves).sum : ℚ) / (top.length : ℚ)
  let pop : ℚ := min 1 (avgSaves / 500)
  let comp : ℚ := min 1 ((loadedCount : ℚ) / 1000)
  jsRound ((0.6 * comp + 0.4 * pop) * 100)

/-- The deduplication step (`src/server.js` line 128):
`pins.filter((p, i, arr) => arr.findIndex(x => x.pinId === p.pinId) === i)`,
i.e. keep the element at index `i` exactly when the first index holding its
`pinId` is `i` itself. -/
def dedupe (pins : List Pin) : List Pin :=
  (pins.enum.filter
    (fun ip => pins.findIdx (fun x => x.pinId == ip.2.pinId) == ip.1)).map Prod.snd

/-- Assembly of the search result on the miss path
(`src/server.js` lines 128-137): dedupe, score with
`loadedCount = uniquePins.length`, sample = first 50 uniques. -/
def assemble (query : String) (pins : List Pin) : SearchResult :=
  let uniquePins := dedupe pins
  let kd := computeKD uniquePins uniquePins.length
  { query := query
    loadedPins := uniquePins.length
    keywordDifficulty := kd
    lowCompetition := decide (kd ≤ 35)
    sample := uniquePins.take 50 }

/-- Numeric value of a digit string, most significant first. -/
def digitsVal (cs : List Char) : Nat :=
  cs.foldl (fun acc c => acc * 10 + (c.toNat - Char.toNat (Char.ofNat 48))) 0

/-- JavaScript `parseInt(s, 10)`: skip leading whitespace, optional sign,
then the longest leading run of decimal digits; `none` models `NaN`
(no digits found). -/
def parseIntJs (s : String) : Option Int :=
  let cs := s.data.dropWhile (fun c => c.isWhitespace)
  match cs with
  | '-' :: r =>
      let ds := r.takeWhile (fun c => c.isDigit)
      if ds.isEmpty then none else some (-(digitsVal ds : Int))
  | '+' :: r =>
      let ds := r.takeWhile (fun c => c.isDigit)
      if ds.isEmpty then none else some ((digitsVal ds : Int))
  | r =>
      let ds := r.takeWhile (fun c => c.isDigit)
      if ds.isEmpty then none else some ((digitsVal ds : Int))

/-- The string handed to `parseInt` by the route
(`src/server.js` line 152): `req.query.scrolls?.toString() || '3'`;
an absent parameter and the (falsy) empty string both default to `"3"`. -/
def scrollsString (raw : Option String) : String :=
  match raw with
  | none => "3"
  | some s => if s = "" then "3" else s

/-- Clamping `Math.min(10, Math.max(1, parseInt(...)))`
(`src/server.js` line 152); `none` models `NaN`, which both `Math.max` and
`Math.min` propagate. -/
def clampScrolls (raw : Option String) : Option Int :=
  (parseIntJs (scrollsString raw)).map (fun v => min 10 (max 1 v))

/-- Number of iterations of `for (let i = 0; i < scrolls; i++)`
(`src/server.js` lines 87-90) as a function of the `scrolls` value:
`NaN` (and any value below 1) yields zero iterations. -/
def scrollIterations (v : Option Int) : Nat :=
  match v with
  | none => 0
  | some k => k.toNat

/-!
Effect model of `pinterestSearch` (`src/server.js` lines 64-145).

Browser operations are an environment of fallible steps (`Env`); a run
returns the delivered result, the final cache, and the trace of operations
*attempted*, in order.  The `try`/`finally` of the source is translated
faithfully: the two `await ... close()` calls run in sequence inside
`finally`, so a failing `page.close()` aborts the `finally` block before
`context.close()`, and an error thrown by the `finally` block replaces the
body's outcome (JavaScript semantics).
-/

/-- An attempted browser-layer operation. -/
inductive Event where
  | getBrowser
  | newContext
  | newPage
  | gotoLogin
  | fillEmail
  | fillPassword
  | submitWait
  | gotoSearch
  | scroll (i : Nat)
  | extract
  | pageClose
  | contextClose
  deriving DecidableEq, Repr

/-- Error values carried by rejected promises. -/
abbrev Err := String

deriving instance DecidableEq for Except

/-- Outcome of each browser-layer operation, supplied by the environment. -/
structure Env where
  launchBrowser : Except Err Unit
  newContext : Except Err Unit
  newPage : Except Err Unit
  gotoLogin : Except Err Unit
  fillEmail : Except Err Unit
  fillPassword : Except Err Unit
  submitWait : Except Err Unit
  gotoSearch : Except Err Unit
  scroll : Nat → Except Err Unit
  extract : Except Err (List Pin)
  pageClose : Except Err Unit
  contextClose : Except Err Unit
  pinEmail : Option String
  pinPassword : Option String

/-- Arguments of `pinterestSearch`; `scrolls = none` models `NaN`. -/
structure Params where
  query : String
  scrolls : Option Int
  login : Bool

/-- JavaScript number-to-string as used in the template literal of the
cache key: `NaN` prints as `"NaN"`. -/
def numStr (v : Option Int) : String :=
  match v with
  | none => "NaN"
  | some k => toString k

/-- The cache key `` `${query}|${scrolls}|${login}` ``
(`src/server.js` line 65). -/
def cacheKey (p : Params) : String :=
  p.query ++ "|" ++ numStr p.scrolls ++ "|" ++ (if p.login then "true" else "false")

/-- The cache, abstracted to an association list; TTL expiry is abstracted
into absence of the key. -/
abbrev Cache := List (String × SearchResult)

/-- Lookup, combining `cache.has`/`cache.get` of an unexpired entry. -/
def cacheGet (c : Cache) (k : String) : Option SearchResult :=
  (c.find? (fun e => e.1 == k)).map Prod.snd

/-- Insertion, modelling `cache.set`. -/
def cacheSet (c : Cache) (k : String) (v : SearchResult) : Cache :=
  (k, v) :: c

/-- JavaScript truthiness of an optional environment string
(`process.env.PIN_EMAIL && ...`): absent and empty are falsy. -/
def truthy (o : Option String) : Bool :=
  match o with
  | none => false
  | some s => s != ""

/-- Run a list of fallible operations in order, recording each attempt and
stopping at the first failure. -/
def seqOps : List (Except Err Unit × Event) → Except Err Unit × List Event
  | [] => (Except.ok (), [])
  | (Except.error e, ev) :: _ => (Except.error e, [ev])
  | (Except.ok _, ev) :: rest =>
    let r := seqOps rest
    (r.1, ev :: r.2)

/-- The operations of the `try` body before extraction: the optional login
sequence (`src/server.js` lines 73-81), the search navigation (line 84), and
the scroll loop (lines 87-90). -/
def missOps (env : Env) (p : Params) : List (Except Err Unit × Event) :=
  (if p.login && truthy env.pinEmail && truthy env.pinPassword then
    [(env.gotoLogin, Event.gotoLogin), (env.fillEmail, Event.fillEmail),
     (env.fillPassword, Event.fillPassword), (env.submitWait, Event.submitWait)]
   else []) ++
  [(env.gotoSearch, Event.gotoSearch)] ++
  (List.range (scrollIterations p.scrolls)).map (fun i => (env.scroll i, Event.scroll i))

/-- The `try` body up to and including extraction (lines 73-126): returns the
raw extracted pins, or the first error. -/
def tryBody (env : Env) (p : Params) : Except Err (List Pin) × List Event :=
  match seqOps (missOps env p) with
  | (Except.error e, tr) => (Except.error e, tr)
  | (Except.ok _, tr) =>
    match env.extract with
    | Except.error e => (Except.error e, tr ++ [Event.extract])
    | Except.ok pins => (Except.ok pins, tr ++ [Event.extract])

/-- The `finally` block (lines 141-144): `await page.close()` then
`await context.close()`; a failing `page.close()` aborts the block, so
`context.close()` is not attempted. -/
def finallyClose (env : Env) : Except Err Unit × List Event :=
  match env.pageClose with
  | Except.error e => (Except.error e, [Event.pageClose])
  | Except.ok _ =>
    match env.contextClose with
    | Except.error e => (Except.error e, [Event.pageClose, Event.contextClose])
    | Except.ok _ => (Except.ok (), [Event.pageClose, Event.contextClose])

/-- The orchestrator `pinterestSearch` (lines 64-145): cache check,
browser/context/page acquisition (the page is created *before* the `try`, so
a failure there skips all cleanup), the `try` body, the cache write on body
success (line 139, inside the `try`, hence before `finally`), and the
`finally` block whose own error, if any, replaces the outcome. -/
def pinterestSearch (env : Env) (cache : Cache) (p : Params) :
    Except Err SearchResult × Cache × List Event :=
  let key := cacheKey p
  match cacheGet cache key with
  | some v => (Except.ok v, cache, [])
  | none =>
    match env.launchBrowser with
    | Except.error e => (Except.error e, cache, [Event.getBrowser])
    | Except.ok _ =>
      match env.newContext with
      | Except.error e => (Except.error e, cache, [Event.getBrowser, Event.newContext])
      | Except.ok _ =>
        match env.newPage with
        | Except.error e =>
            (Except.error e, cache, [Event.getBrowser, Event.newContext, Event.newPage])
        | Except.ok _ =>
          let pre : List Event := [Event.getBrowser, Event.newContext, Event.newPage]
          let b := tryBody env p
          let f := finallyClose env
          let res : Except Err SearchResult × Cache :=
            match b.1 with
            | Except.ok pins =>
              let out := assemble p.query pins
              let cache' := cacheSet cache key out
              match f.1 with
              | Except.error e => (Except.error e, cache')
              | Except.ok _ => (Except.ok out, cache')
            | Except.error e =>
              match f.1 with
              | Except.error e2 => (Except.error e2, cache)
              | Except.ok _ => (Except.error e, cache)
          (res.1, res.2, pre ++ b.2 ++ f.2)

/-- Classifier for scroll events, to count loop iterations in a trace. -/
def isScrollEv : Event → Bool
  | Event.scroll _ => true
  | _ => false

/-- All operations a run can possibly attempt, in program order. -/
def allEvents (env : Env) (p : Params) : List Event :=
  [Event.getBrowser, Event.newContext, Event.newPage] ++
  (missOps env p).map Prod.snd ++ [Event.extract, Event.pageClose, Event.contextClose]

/-!
Concrete fixtures used by the worked scenario and the witness and
counterexample theorems: an extraction pass yielding identifiers A, B, A
with save counts 100, 50, 100, and environments in which every operation
succeeds, or a designated operation fails.
-/

/-- First extracted record of the scenario: identifier A, 100 saves. -/
def pinA : Pin := ⟨"A", "https://www.pinterest.com/pin/A/", "", "mug one", 100⟩

/-- Second extracted record of the scenario: identifier B, 50 saves. -/
def pinB : Pin := ⟨"B", "https://www.pinterest.com/pin/B/", "", "mug two", 50⟩

/-- Third extracted record of the scenario: identifier A again, 100 saves. -/
def pinA2 : Pin := ⟨"A", "https://www.pinterest.com/pin/A/", "", "mug one again", 100⟩

/-- Scenario parameters: query "ceramic mugs", scrolls 2, login false. -/
def paramsMugs : Params := ⟨"ceramic mugs", some 2, false⟩

/-- Environment in which every browser operation succeeds and extraction
yields the scenario records. -/
def envAllOk : Env :=
  { launchBrowser := Except.ok (), newContext := Except.ok (), newPage := Except.ok ()
    gotoLogin := Except.ok (), fillEmail := Except.ok (), fillPassword := Except.ok ()
    submitWait := Except.ok (), gotoSearch := Except.ok ()
    scroll := fun _ => Except.ok (), extract := Except.ok [pinA, pinB, pinA2]
    pageClose := Except.ok (), contextClose := Except.ok ()
    pinEmail := none, pinPassword := none }

/-- Environment in which only `page.close()` fails. -/
def envPageCloseFails : Env := { envAllOk with pageClose := Except.error "closefail" }

/-- Environment in which the search navigation and `page.close()` both fail. -/
def envNavCloseFail : Env :=
  { envAllOk with gotoSearch := Except.error "navfail", pageClose := Except.error "closefail" }

/-- Environment in which only the search navigation fails. -/
def envNavFails : Env := { envAllOk with gotoSearch := Except.error "navfail" }

/-- Arbitrary cached search result used to exercise the cache-hit path. -/
def resultStub : SearchResult := ⟨"stub", 0, 0, true, []⟩

/-! Helper lemmas about the deduplication filter. -/

lemma dedupe_sublist (l : List Pin) : (dedupe l).Sublist l := by
  have h := (List.filter_sublist (l := l.enum)
    (p := fun ip => l.findIdx (fun x => x.pinId == ip.2.pinId) == ip.1)).map Prod.snd
  rwa [List.enum_map_snd] at h

lemma enum_fst_pairwise (l : List Pin) :
    l.enum.Pairwise (fun a b => a.1 ≠ b.1) := by
  have h := List.nodup_enum_map_fst l
  rw [List.Nodup, List.pairwise_map] at h
  exact h

lemma dedupe_ids_nodup (l : List Pin) : ((dedupe l).map Pin.pinId).Nodup := by
  unfold dedupe
  rw [List.map_map, List.Nodup, List.pairwise_map]
  have h1 : l.enum.Pairwise (fun a b : Nat × Pin =>
      (l.findIdx (fun x => x.pinId == a.2.pinId) == a.1) = true →
      (l.findIdx (fun x => x.pinId == b.2.pinId) == b.1) = true →
      ¬a.2.pinId = b.2.pinId) := by
    refine (enum_fst_pairwise l).imp ?_
    intro a b hab ha hb hid
    apply hab
    have : (fun x : Pin => x.pinId == a.2.pinId) = (fun x : Pin => x.pinId == b.2.pinId) := by
      funext x; rw [hid]
    rw [beq_iff_eq] at ha hb
    rw [← ha, ← hb, this]
  have h2 := h1.filter (fun ip => l.findIdx (fun x => x.pinId == ip.2.pinId) == ip.1)
  refine h2.imp_of_mem ?_
  intro a b ha hb hxy
  have qa := List.of_mem_filter ha
  have qb := List.of_mem_filter hb
  exact hxy qa qb

lemma dedupe_eq_self (l : List Pin) (h : (l.map Pin.pinId).Nodup) : dedupe l = l := by
  unfold dedupe
  have hpw : l.Pairwise (fun a b => a.pinId ≠ b.pinId) := by
    rw [List.Nodup, List.pairwise_map] at h
    exact h
  have hf : l.enum.filter (fun ip => l.findIdx (fun x => x.pinId == ip.2.pinId) == ip.1)
      = l.enum := by
    rw [List.filter_eq_self]
    intro ip hip
    rw [List.mem_enum_iff_getElem?] at hip
    have hlt : ip.1 < l.length := (List.getElem?_eq_some.mp hip).1
    have hval : l[ip.1] = ip.2 := (List.getElem?_eq_some.mp hip).2
    rw [beq_iff_eq, List.findIdx_eq hlt]
    constructor
    · rw [hval]
      exact beq_self_eq_true _
    · intro j hj
      simp only [beq_eq_false_iff_ne, ne_eq]
      intro hid
      have hji : j < l.length := Nat.lt_trans hj hlt
      have hne := List.pairwise_iff_getElem.mp hpw j ip.1 hji hlt hj
      rw [hval] at hne
      exact hne hid
  rw [hf, List.enum_map_snd]

lemma dedupe_idem (l : List Pin) : dedupe (dedupe l) = dedupe l :=
  dedupe_eq_self _ (dedupe_ids_nodup l)

lemma mem_dedupe_iff (l : List Pin) (p : Pin) :
    p ∈ dedupe l ↔ ∃ i, l[i]? = some p ∧ l.findIdx (fun x => x.pinId == p.pinId) = i := by
  unfold dedupe
  simp only [List.mem_map, List.mem_filter, List.mem_enum_iff_getElem?]
  constructor
  · rintro ⟨⟨i, q⟩, ⟨hget, hidx⟩, rfl⟩
    exact ⟨i, hget, by simpa using hidx⟩
  · rintro ⟨i, hget, hidx⟩
    exact ⟨(i, p), ⟨hget, by simpa using hidx⟩, rfl⟩

/-! Helper lemmas about the score. -/

lemma jsRound_range {q : ℚ} (h0 : 0 ≤ q) (h1 : q ≤ 100) :
    0 ≤ jsRound q ∧ jsRound q ≤ 100 := by
  unfold jsRound
  constructor
  · apply Int.floor_nonneg.mpr
    linarith
  · have : ⌊q + 1 / 2⌋ < 101 := by
      rw [Int.floor_lt]
      push_cast
      linarith
    omega

lemma score_arg_bounds (a c : ℚ) (ha : 0 ≤ a) (hc : 0 ≤ c) :
    0 ≤ (0.6 * min 1 c + 0.4 * min 1 a) * 100 ∧
    (0.6 * min 1 c + 0.4 * min 1 a) * 100 ≤ 100 := by
  have h1 : 0 ≤ min 1 c := le_min (by norm_num) hc
  have h2 : 0 ≤ min 1 a := le_min (by norm_num) ha
  have h3 : min 1 c ≤ 1 := min_le_left _ _
  have h4 : min 1 a ≤ 1 := min_le_left _ _
  constructor <;> nlinarith

lemma computeKD_nonneg_le (pins : List Pin) (loadedCount : Nat) :
    0 ≤ computeKD pins loadedCount ∧ computeKD pins loadedCount ≤ 100 := by
  have havg0 : 0 ≤ (if (pins.take 20).length = 0 then (0:ℚ)
      else (((pins.take 20).map Pin.saves).sum : ℚ) / ((pins.take 20).length : ℚ)) := by
    split
    · norm_num
    · positivity
  show 0 ≤ jsRound ((0.6 * min 1 ((loadedCount : ℚ) / 1000) +
      0.4 * min 1 ((if (pins.take 20).length = 0 then (0:ℚ)
        else (((pins.take 20).map Pin.saves).sum : ℚ) / ((pins.take 20).length : ℚ)) / 500)) * 100) ∧ _
  have hb := score_arg_bounds
    ((if (pins.take 20).length = 0 then (0:ℚ)
        else (((pins.take 20).map Pin.saves).sum : ℚ) / ((pins.take 20).length : ℚ)) / 500)
    ((loadedCount : ℚ) / 1000)
    (div_nonneg havg0 (by norm_num))
    (div_nonneg (by positivity) (by norm_num))
  exact jsRound_range hb.1 hb.2

lemma kd_mugs : computeKD [pinA, pinB] 2 = 6 := by
  unfold computeKD jsRound
  simp [pinA, pinB, min_def]
  norm_num

lemma assemble_mugs :
    assemble "ceramic mugs" [pinA, pinB, pinA2] =
      { query := "ceramic mugs", loadedPins := 2, keywordDifficulty := 6,
        lowCompetition := true, sample := [pinA, pinB] } := by
  have hd : dedupe [pinA, pinB, pinA2] = [pinA, pinB] := by decide
  have hlen : ([pinA, pinB] : List Pin).length = 2 := rfl
  simp only [assemble, hd, hlen, kd_mugs]
  decide

/-! Helper lemmas about operation traces. -/

lemma seqOps_trace_sublist (ops : List (Except Err Unit × Event)) :
    (seqOps ops).2.Sublist (ops.map Prod.snd) := by
  induction ops with
  | nil => simp [seqOps]
  | cons op rest ih =>
    obtain ⟨o, ev⟩ := op
    cases o with
    | error e => simp [seqOps]
    | ok u => simpa [seqOps] using ih

lemma missOps_map_snd (env : Env) (p : Params) :
    (missOps env p).map Prod.snd =
      (if p.login && truthy env.pinEmail && truthy env.pinPassword then
        [Event.gotoLogin, Event.fillEmail, Event.fillPassword, Event.submitWait] else []) ++
      [Event.gotoSearch] ++
      (List.range (scrollIterations p.scrolls)).map Event.scroll := by
  unfold missOps
  split <;> simp

lemma missOps_snd_nodup (env : Env) (p : Params) :
    ((missOps env p).map Prod.snd).Nodup := by
  rw [missOps_map_snd]
  have hsc : ((List.range (scrollIterations p.scrolls)).map Event.scroll).Nodup := by
    refine List.Nodup.map ?_ (List.nodup_range _)
    intro i j hij
    injection hij
  split <;> simp [List.nodup_append, hsc]

lemma missOps_scroll_count (env : Env) (p : Params) :
    ((missOps env p).map Prod.snd).countP isScrollEv = scrollIterations p.scrolls := by
  rw [missOps_map_snd]
  have h1 : ((List.range (scrollIterations p.scrolls)).map Event.scroll).countP isScrollEv
      = scrollIterations p.scrolls := by
    rw [List.countP_map]
    have hco : (isScrollEv ∘ Event.scroll) = fun _ => true := by
      funext i; rfl
    rw [hco, List.countP_true, List.length_range]
  split <;> simp [List.countP_append, h1, isScrollEv, List.countP_cons]

lemma allEvents_nodup (env : Env) (p : Params) : (allEvents env p).Nodup := by
  unfold allEvents
  rw [missOps_map_snd]
  have hsc : ((List.range (scrollIterations p.scrolls)).map Event.scroll).Nodup := by
    refine List.Nodup.map ?_ (List.nodup_range _)
    intro i j hij
    injection hij
  split <;> simp [List.nodup_append, hsc]

lemma tryBody_trace_sublist (env : Env) (p : Params) :
    (tryBody env p).2.Sublist ((missOps env p).map Prod.snd ++ [Event.extract]) := by
  unfold tryBody
  have hsub := seqOps_trace_sublist (missOps env p)
  rcases hs : seqOps (missOps env p) with ⟨r, tr⟩
  rw [hs] at hsub
  replace hsub : tr.Sublist ((missOps env p).map Prod.snd) := hsub
  cases r with
  | error e =>
    simpa using hsub.trans (List.sublist_append_left _ _)
  | ok u =>
    cases hx : env.extract with
    | error e =>
      simpa using List.Sublist.append hsub (List.Sublist.refl [Event.extract])
    | ok pins =>
      simpa using List.Sublist.append hsub (List.Sublist.refl [Event.extract])

lemma finallyClose_trace_sublist (env : Env) :
    (finallyClose env).2.Sublist [Event.pageClose, Event.contextClose] := by
  unfold finallyClose
  cases env.pageClose with
  | error e => simp
  | ok u =>
    cases env.contextClose with
    | error e => simp
    | ok u2 => simp

lemma pinterestSearch_trace_sublist (env : Env) (cache : Cache) (p : Params) :
    (pinterestSearch env cache p).2.2.Sublist (allEvents env p) := by
  rcases hc : cacheGet cache (cacheKey p) with _ | v
  case some =>
    simp [pinterestSearch, hc]
  case none =>
    rcases hl : env.launchBrowser with e | u1
    · simp [pinterestSearch, hc, hl, allEvents]
    rcases hn : env.newContext with e | u2
    · simp only [pinterestSearch, hc, hl, hn]
      have h1 : [Event.getBrowser, Event.newContext].Sublist
          [Event.getBrowser, Event.newContext, Event.newPage] := by decide
      exact List.Sublist.trans (List.Sublist.trans h1 (List.sublist_append_left _ _))
        (List.sublist_append_left _ _)
    rcases hp : env.newPage with e | u3
    · simp only [pinterestSearch, hc, hl, hn, hp]
      exact List.Sublist.trans (List.sublist_append_left _ _) (List.sublist_append_left _ _)
    simp only [pinterestSearch, hc, hl, hn, hp]
    have hb := tryBody_trace_sublist env p
    have hf := finallyClose_trace_sublist env
    have base := ((List.Sublist.refl
        [Event.getBrowser, Event.newContext, Event.newPage]).append (hb.append hf))
    unfold allEvents
    simpa [List.append_assoc] using base

lemma pinterestSearch_trace_nodup (env : Env) (cache : Cache) (p : Params) :
    (pinterestSearch env cache p).2.2.Nodup :=
  (allEvents_nodup env p).sublist (pinterestSearch_trace_sublist env cache p)

/-! Helper lemmas about the cache-key string. -/

lemma sep_append_inj (a : List Char) : ∀ (b : List Char) {x y : List Char},
    Char.ofNat 124 ∉ x → Char.ofNat 124 ∉ y →
    a ++ (Char.ofNat 124 :: x) = b ++ (Char.ofNat 124 :: y) → a = b ∧ x = y := by
  induction a with
  | nil =>
    intro b x y hx hy h
    cases b with
    | nil =>
      simp only [List.nil_append] at h
      exact ⟨rfl, (List.cons.injEq _ _ _ _).mp h |>.2⟩
    | cons c b2 =>
      simp only [List.nil_append, List.cons_append] at h
      obtain ⟨hc, hrest⟩ := (List.cons.injEq _ _ _ _).mp h
      exfalso
      apply hx
      rw [hrest]
      exact List.mem_append_right _ (List.mem_cons_self _ _)
  | cons c a2 ih =>
    intro b x y hx hy h
    cases b with
    | nil =>
      simp only [List.nil_append, List.cons_append] at h
      obtain ⟨hc, hrest⟩ := (List.cons.injEq _ _ _ _).mp h
      exfalso
      apply hy
      rw [← hrest]
      exact List.mem_append_right _ (List.mem_cons_self _ _)
    | cons d b2 =>
      simp only [List.cons_append] at h
      obtain ⟨hc, hrest⟩ := (List.cons.injEq _ _ _ _).mp h
      obtain ⟨hab, hxy⟩ := ih b2 hx hy hrest
      exact ⟨by rw [hc, hab], hxy⟩

lemma cacheKey_data (q : String) (s : Int) (l : Bool) :
    (cacheKey ⟨q, some s, l⟩).data
      = (q.data ++ (Char.ofNat 124 :: (toString s).data)) ++
        (Char.ofNat 124 :: (if l then "true" else "false").data) := by
  cases l <;> simp [cacheKey, numStr, String.data_append]

lemma pipe_not_in_toString (s : Int) (h1 : 1 ≤ s) (h2 : s ≤ 10) :
    Char.ofNat 124 ∉ (toString s).data := by
  interval_cases s <;> decide

lemma toString_small_int_inj (s1 s2 : Int) (h1 : 1 ≤ s1) (h2 : s1 ≤ 10)
    (h3 : 1 ≤ s2) (h4 : s2 ≤ 10) (h : (toString s1).data = (toString s2).data) :
    s1 = s2 := by
  interval_cases s1 <;> interval_cases s2 <;> revert h <;> decide

/-! Helper lemmas about cleanup and the cache behaviour of a run. -/

lemma tryBody_no_close (env : Env) (p : Params) :
    Event.pageClose ∉ (tryBody env p).2 ∧ Event.contextClose ∉ (tryBody env p).2 := by
  have hsub := (tryBody_trace_sublist env p).subset
  constructor <;> intro hm <;> have hx := hsub hm <;> rw [missOps_map_snd] at hx <;>
    revert hx <;> split <;> simp

lemma finallyClose_cases (env : Env) :
    (env.pageClose = Except.ok () → Event.pageClose ∈ (finallyClose env).2 ∧
      Event.contextClose ∈ (finallyClose env).2) ∧
    (∀ e, env.pageClose = Except.error e →
      (finallyClose env).2 = [Event.pageClose]) := by
  constructor
  · intro hpc
    unfold finallyClose
    rw [hpc]
    cases env.contextClose <;> simp
  · intro e hpc
    unfold finallyClose
    rw [hpc]

lemma pageClose_mem_finallyClose (env : Env) :
    Event.pageClose ∈ (finallyClose env).2 := by
  unfold finallyClose
  cases env.pageClose with
  | error e => simp
  | ok u => cases env.contextClose <;> simp

lemma pinterestSearch_miss_trace (env : Env) (cache : Cache) (p : Params)
    (hmiss : cacheGet cache (cacheKey p) = none)
    (hl : env.launchBrowser = Except.ok ()) (hn : env.newContext = Except.ok ())
    (hp : env.newPage = Except.ok ()) :
    (pinterestSearch env cache p).2.2
      = [Event.getBrowser, Event.newContext, Event.newPage] ++
        (tryBody env p).2 ++ (finallyClose env).2 := by
  simp [pinterestSearch, hmiss, hl, hn, hp]

/-! Claim theorems. -/

/-- C1: end-to-end scenario — for query "ceramic mugs", scrolls 2, login
false, with extraction yielding records A(100), B(50), A(100), the pipeline
dedupes to [A(100), B(50)], reports loadedCount 2, difficulty score 6 and
isLowCompetition true, both in the returned result and via the scorer and
deduplicator taken separately. -/
theorem scenario_ceramic_mugs :
    dedupe [pinA, pinB, pinA2] = [pinA, pinB] ∧
    computeKD [pinA, pinB] 2 = 6 ∧
    (pinterestSearch envAllOk [] paramsMugs).1 =
      Except.ok { query := "ceramic mugs", loadedPins := 2, keywordDifficulty := 6,
                  lowCompetition := true, sample := [pinA, pinB] } ∧
    cacheGet (pinterestSearch envAllOk [] paramsMugs).2.1 (cacheKey paramsMugs) =
      some { query := "ceramic mugs", loadedPins := 2, keywordDifficulty := 6,
             lowCompetition := true, sample := [pinA, pinB] } := by
  have h1 : (pinterestSearch envAllOk [] paramsMugs).1
      = Except.ok (assemble "ceramic mugs" [pinA, pinB, pinA2]) := rfl
  have h2 : cacheGet (pinterestSearch envAllOk [] paramsMugs).2.1 (cacheKey paramsMugs)
      = some (assemble "ceramic mugs" [pinA, pinB, pinA2]) := rfl
  refine ⟨by decide, kd_mugs, ?_, ?_⟩
  · rw [h1, assemble_mugs]
  · rw [h2, assemble_mugs]

/-- C2: for every list of records and every loaded count, `computeKD`
returns an integer in [0, 100], and `computeKD [] 0 = 0`; it is a total
function of its arguments, hence deterministic and never failing. -/
theorem computeKD_in_range (pins : List Pin) (loadedCount : Nat) :
    0 ≤ computeKD pins loadedCount ∧ computeKD pins loadedCount ≤ 100 ∧
    computeKD ([] : List Pin) 0 = 0 := by
  refine ⟨(computeKD_nonneg_le pins loadedCount).1,
    (computeKD_nonneg_le pins loadedCount).2, ?_⟩
  unfold computeKD jsRound
  norm_num

/-- C3: `dedupe` output has pairwise-distinct identifiers, is a subsequence
of the input (hence preserves first-occurrence order), is empty on empty
input, is idempotent, and its members are exactly the records sitting at the
first index carrying their identifier. -/
theorem dedupe_spec (l : List Pin) :
    ((dedupe l).map Pin.pinId).Nodup ∧
    (dedupe l).Sublist l ∧
    dedupe ([] : List Pin) = [] ∧
    dedupe (dedupe l) = dedupe l ∧
    (∀ p : Pin, p ∈ dedupe l ↔
      ∃ i, l[i]? = some p ∧ l.findIdx (fun x => x.pinId == p.pinId) = i) :=
  ⟨dedupe_ids_nodup l, dedupe_sublist l, rfl, dedupe_idem l, fun p => mem_dedupe_iff l p⟩

/-- C4 counterexample: in a run in which everything succeeds except
`page.close()`, the fetch exits with the close error, the page close was
attempted, but `context.close()` was never attempted — so it is false that
the context is released on every exit path, and false that closing the
context is still attempted when closing the page fails. -/
theorem cleanup_counterexample :
    (pinterestSearch envPageCloseFails [] paramsMugs).1 = Except.error "closefail" ∧
    Event.pageClose ∈ (pinterestSearch envPageCloseFails [] paramsMugs).2.2 ∧
    Event.contextClose ∉ (pinterestSearch envPageCloseFails [] paramsMugs).2.2 := by
  refine ⟨?_, by decide, by decide⟩
  decide

/-- C4 amended: on every exit path of a cache-miss fetch that successfully
acquired browser, context and page, closing the page is attempted; closing
the context is attempted when closing the page succeeds, and is not
attempted when closing the page fails. -/
theorem cleanup_amended (env : Env) (cache : Cache) (p : Params)
    (hmiss : cacheGet cache (cacheKey p) = none)
    (hl : env.launchBrowser = Except.ok ()) (hn : env.newContext = Except.ok ())
    (hp : env.newPage = Except.ok ()) :
    Event.pageClose ∈ (pinterestSearch env cache p).2.2 ∧
    (env.pageClose = Except.ok () → Event.contextClose ∈ (pinterestSearch env cache p).2.2) ∧
    (∀ e, env.pageClose = Except.error e →
      Event.contextClose ∉ (pinterestSearch env cache p).2.2) := by
  rw [pinterestSearch_miss_trace env cache p hmiss hl hn hp]
  refine ⟨?_, ?_, ?_⟩
  · simp [pageClose_mem_finallyClose env]
  · intro hpc
    have hcc := ((finallyClose_cases env).1 hpc).2
    simp [hcc]
  · intro e hpc hm
    have hfc := (finallyClose_cases env).2 e hpc
    rw [hfc] at hm
    simp only [List.append_assoc, List.mem_append] at hm
    rcases hm with hm | hm | hm
    · simp at hm
    · exact (tryBody_no_close env p).2 hm
    · simp at hm

/-- Witness for the amended C4 theorem at a concrete run in which
`page.close()` fails. -/
theorem cleanup_amended_witness :
    Event.pageClose ∈ (pinterestSearch envPageCloseFails [] paramsMugs).2.2 ∧
    Event.contextClose ∉ (pinterestSearch envPageCloseFails [] paramsMugs).2.2 :=
  ⟨(cleanup_amended envPageCloseFails [] paramsMugs (by decide) rfl rfl rfl).1,
   (cleanup_amended envPageCloseFails [] paramsMugs (by decide) rfl rfl rfl).2.2
     "closefail" rfl⟩

/-- C5 counterexample: when the search navigation fails with "navfail" and
`page.close()` then fails with "closefail", the caller receives "closefail",
not the original navigation error — the error does not propagate
unmodified. -/
theorem error_propagation_counterexample :
    (tryBody envNavCloseFail paramsMugs).1 = Except.error "navfail" ∧
    (pinterestSearch envNavCloseFail [] paramsMugs).1 = Except.error "closefail" ∧
    (pinterestSearch envNavCloseFail [] paramsMugs).1 ≠ Except.error "navfail" := by
  decide

/-- C5 amended: if the body of a cache-miss fetch (login, navigation,
scrolling or extraction) fails with error `e` and both cleanup close
operations succeed, then `e` propagates unmodified to the caller, the cache
is left unchanged, and no operation is attempted twice (no retry). -/
theorem error_propagation_amended (env : Env) (cache : Cache) (p : Params) (e : Err)
    (hmiss : cacheGet cache (cacheKey p) = none)
    (hl : env.launchBrowser = Except.ok ()) (hn : env.newContext = Except.ok ())
    (hpg : env.newPage = Except.ok ())
    (hbody : (tryBody env p).1 = Except.error e)
    (hpc : env.pageClose = Except.ok ()) (hcc : env.contextClose = Except.ok ()) :
    (pinterestSearch env cache p).1 = Except.error e ∧
    (pinterestSearch env cache p).2.1 = cache ∧
    (pinterestSearch env cache p).2.2.Nodup := by
  have hf : (finallyClose env).1 = Except.ok () := by
    unfold finallyClose
    rw [hpc, hcc]
  refine ⟨?_, ?_, pinterestSearch_trace_nodup env cache p⟩
  · simp [pinterestSearch, hmiss, hl, hn, hpg, hbody, hf]
  · simp [pinterestSearch, hmiss, hl, hn, hpg, hbody, hf]

/-- Witness for the amended C5 theorem at a concrete run in which the
search navigation fails and cleanup succeeds. -/
theorem error_propagation_amended_witness :
    (pinterestSearch envNavFails [] paramsMugs).1 = Except.error "navfail" ∧
    (pinterestSearch envNavFails [] paramsMugs).2.1 = [] ∧
    (pinterestSearch envNavFails [] paramsMugs).2.2.Nodup :=
  error_propagation_amended envNavFails [] paramsMugs "navfail"
    (by decide) rfl rfl rfl (by decide) rfl rfl

/-- C6: on a present cache entry, `pinterestSearch` returns exactly the
cached result, leaves the cache unchanged, and attempts no browser
operation (empty trace); consequently a repeated identical request after
any successful request returns the identical payload with no browser
interaction, whatever the browser environment then does. -/
theorem cache_hit_no_browser (env env2 : Env) (cache : Cache) (p : Params) :
    (∀ v, cacheGet cache (cacheKey p) = some v →
      pinterestSearch env cache p = (Except.ok v, cache, [])) ∧
    (∀ r c tr, pinterestSearch env cache p = (Except.ok r, c, tr) →
      pinterestSearch env2 c p = (Except.ok r, c, [])) := by
  constructor
  · intro v hv
    simp [pinterestSearch, hv]
  · intro r c tr h
    have hget : cacheGet c (cacheKey p) = some r := by
      rcases hc : cacheGet cache (cacheKey p) with _ | v
      · simp only [pinterestSearch, hc] at h
        rcases hl : env.launchBrowser with e | u1 <;> rw [hl] at h
        · simp at h
        rcases hn : env.newContext with e | u2 <;> rw [hn] at h
        · simp at h
        rcases hp : env.newPage with e | u3 <;> rw [hp] at h
        · simp at h
        rcases hb : (tryBody env p).1 with e | pins <;> rw [hb] at h
        · rcases hf : (finallyClose env).1 with e2 | u4 <;> rw [hf] at h <;> simp at h
        · rcases hf : (finallyClose env).1 with e2 | u4 <;> rw [hf] at h
          · simp at h
          · simp only [Prod.mk.injEq] at h
            obtain ⟨h1, h2, h3⟩ := h
            have hr := Except.ok.inj h1
            rw [← h2, ← hr]
            simp [cacheGet, cacheSet]
      · simp only [pinterestSearch, hc] at h
        simp only [Prod.mk.injEq] at h
        obtain ⟨h1, h2, h3⟩ := h
        rw [← h2, hc, Except.ok.inj h1]
    simp [pinterestSearch, hget]

/-- Witness for C6 at a concrete cache holding an entry for the scenario
key: both a direct hit and a repeat of a completed request return the
cached payload with an empty trace. -/
theorem cache_hit_no_browser_witness :
    pinterestSearch envAllOk [(cacheKey paramsMugs, resultStub)] paramsMugs
      = (Except.ok resultStub, [(cacheKey paramsMugs, resultStub)], []) ∧
    pinterestSearch envNavFails [(cacheKey paramsMugs, resultStub)] paramsMugs
      = (Except.ok resultStub, [(cacheKey paramsMugs, resultStub)], []) :=
  ⟨(cache_hit_no_browser envAllOk envNavFails
      [(cacheKey paramsMugs, resultStub)] paramsMugs).1 resultStub (by decide),
   (cache_hit_no_browser envAllOk envNavFails
      [(cacheKey paramsMugs, resultStub)] paramsMugs).2 resultStub
      [(cacheKey paramsMugs, resultStub)] [] (by decide)⟩

/-- C7: the cache key is injective on query-parameter tuples — for
scroll counts in the clamped range [1, 10], two tuples producing the same
key are equal componentwise, so distinct parameter combinations never share
a cache entry. -/
theorem cacheKey_injective (q1 q2 : String) (s1 s2 : Int) (l1 l2 : Bool)
    (hs1 : 1 ≤ s1) (hs1b : s1 ≤ 10) (hs2 : 1 ≤ s2) (hs2b : s2 ≤ 10)
    (h : cacheKey ⟨q1, some s1, l1⟩ = cacheKey ⟨q2, some s2, l2⟩) :
    q1 = q2 ∧ s1 = s2 ∧ l1 = l2 := by
  have hdata := congrArg String.data h
  rw [cacheKey_data, cacheKey_data] at hdata
  have hl1 : Char.ofNat 124 ∉ (if l1 then "true" else "false").data := by
    cases l1 <;> decide
  have hl2 : Char.ofNat 124 ∉ (if l2 then "true" else "false").data := by
    cases l2 <;> decide
  obtain ⟨hqs, hl⟩ := sep_append_inj _ _ hl1 hl2 hdata
  obtain ⟨hq, hs⟩ := sep_append_inj _ _ (pipe_not_in_toString s1 hs1 hs1b)
    (pipe_not_in_toString s2 hs2 hs2b) hqs
  refine ⟨?_, toString_small_int_inj s1 s2 hs1 hs1b hs2 hs2b hs, ?_⟩
  · cases q1; cases q2; exact congrArg String.mk hq
  · cases l1 <;> cases l2 <;> revert hl <;> decide

/-- Witness for C7 at the concrete tuple ("mugs", 3, true). -/
theorem cacheKey_injective_witness :
    "mugs" = "mugs" ∧ (3 : Int) = 3 ∧ true = true :=
  cacheKey_injective "mugs" "mugs" 3 3 true true
    (by decide) (by decide) (by decide) (by decide) rfl

/-- C8 counterexample: for the request value scrolls="abc" the clamp yields
`NaN` (not a value in [1, 10]) and the scroll loop of the resulting
cache-miss fetch attempts zero scroll operations — so it is false that the
scrolls parameter of every request is clamped into [1, 10]. -/
theorem scrolls_clamp_counterexample :
    clampScrolls (some "abc") = none ∧
    scrollIterations (clampScrolls (some "abc")) = 0 ∧
    (pinterestSearch envAllOk []
      ⟨"ceramic mugs", clampScrolls (some "abc"), false⟩).2.2.countP isScrollEv = 0 := by
  decide

/-- C8 amended: whenever the route-level parse of the scrolls parameter
yields a number (in particular scrolls=0 → 1, scrolls=15 → 10, and an
absent parameter → 3), the clamped value lies in [1, 10] and the scroll
loop of a cache-miss fetch attempts exactly that many (between 1 and 10)
scroll operations. -/
theorem scrolls_clamp_amended :
    clampScrolls none = some 3 ∧
    clampScrolls (some "0") = some 1 ∧
    clampScrolls (some "15") = some 10 ∧
    (∀ raw v, clampScrolls raw = some v →
      (1 ≤ v ∧ v ≤ 10) ∧
      (∀ env q lg, ((missOps env ⟨q, some v, lg⟩).map Prod.snd).countP isScrollEv = v.toNat) ∧
      1 ≤ v.toNat ∧ v.toNat ≤ 10) := by
  refine ⟨by decide, by decide, by decide, ?_⟩
  intro raw v hv
  obtain ⟨x, hx, hxv⟩ := Option.map_eq_some'.mp hv
  have hrange : 1 ≤ v ∧ v ≤ 10 := by
    rw [← hxv]
    omega
  refine ⟨hrange, ?_, by omega, by omega⟩
  intro env q lg
  simpa [scrollIterations] using missOps_scroll_count env ⟨q, some v, lg⟩

/-- Witness for the amended C8 theorem at the parse of scrolls="0",
clamped to 1. -/
theorem scrolls_clamp_amended_witness :
    (1 ≤ (1 : Int) ∧ (1 : Int) ≤ 10) ∧
    ((missOps envAllOk ⟨"ceramic mugs", some 1, false⟩).map Prod.snd).countP isScrollEv
      = (1 : Int).toNat ∧
    1 ≤ (1 : Int).toNat ∧ (1 : Int).toNat ≤ 10 := by
  have h := scrolls_clamp_amended.2.2.2 (some "0") 1 (by decide)
  exact ⟨h.1, h.2.1 envAllOk "ceramic mugs" false, h.2.2⟩

/-- C9: every result `pinterestSearch` assembles on the miss path satisfies
the Search Result invariants — loadedCount is the unique record count after
deduplication, the sample is the first 50 uniques in first-seen order
(hence at most 50 records with pairwise-distinct identifiers),
isLowCompetition holds exactly when the difficulty score is at most 35, and
the score is in [0, 100]. -/
theorem assemble_invariants (q : String) (pins : List Pin) :
    (assemble q pins).query = q ∧
    (assemble q pins).loadedPins = (dedupe pins).length ∧
    (assemble q pins).sample = (dedupe pins).take 50 ∧
    (assemble q pins).sample.length ≤ 50 ∧
    ((assemble q pins).sample.map Pin.pinId).Nodup ∧
    ((assemble q pins).lowCompetition = true ↔ (assemble q pins).keywordDifficulty ≤ 35) ∧
    (assemble q pins).keywordDifficulty = computeKD (dedupe pins) (dedupe pins).length ∧
    0 ≤ (assemble q pins).keywordDifficulty ∧ (assemble q pins).keywordDifficulty ≤ 100 := by
  refine ⟨rfl, rfl, rfl, ?_, ?_, ?_, rfl, ?_, ?_⟩
  · show ((dedupe pins).take 50).length ≤ 50
    exact List.length_take_le _ _
  · show (((dedupe pins).take 50).map Pin.pinId).Nodup
    rw [List.map_take]
    exact (dedupe_ids_nodup pins).sublist (List.take_sublist _ _)
  · show decide (computeKD (dedupe pins) (dedupe pins).length ≤ 35) = true ↔ _
    exact decide_eq_true_iff
  · exact (computeKD_nonneg_le _ _).1
  · exact (computeKD_nonneg_le _ _).2

/-- C10 counterexample: the empty string is a present scrolls value that
does not parse as an integer, yet the code's `|| '3'` fallback makes the
parsed value 3 (not NaN) and the loop runs 3 iterations, not zero. -/
theorem nan_scrolls_counterexample :
    parseIntJs "" = none ∧
    clampScrolls (some "") = some 3 ∧
    scrollIterations (clampScrolls (some "")) = 3 := by
  decide

/-- C10 amended: for a present, non-empty scrolls parameter that does not
parse as an integer, the parse yields NaN, the min/max clamp propagates NaN
rather than a value in [1, 10], and the scroll loop of the resulting
cache-miss fetch attempts zero scroll operations. -/
theorem nan_scrolls_amended (s : String) (hne : s ≠ "") (hp : parseIntJs s = none) :
    clampScrolls (some s) = none ∧
    scrollIterations (clampScrolls (some s)) = 0 ∧
    (∀ env q lg,
      ((missOps env ⟨q, clampScrolls (some s), lg⟩).map Prod.snd).countP isScrollEv = 0) := by
  have hss : scrollsString (some s) = s := by
    show (if s = "" then "3" else s) = s
    rw [if_neg hne]
  have hc : clampScrolls (some s) = none := by
    unfold clampScrolls
    rw [hss, hp]
    rfl
  refine ⟨hc, by rw [hc]; rfl, ?_⟩
  intro env q lg
  rw [hc]
  simpa [scrollIterations] using missOps_scroll_count env ⟨q, none, lg⟩

/-- Witness for the amended C10 theorem at scrolls="abc". -/
theorem nan_scrolls_amended_witness :
    clampScrolls (some "abc") = none ∧
    scrollIterations (clampScrolls (some "abc")) = 0 ∧
    ((missOps envAllOk ⟨"ceramic mugs", clampScrolls (some "abc"), false⟩).map
      Prod.snd).countP isScrollEv = 0 := by
  have h := nan_scrolls_amended "abc" (by decide) (by decide)
  exact ⟨h.1, h.2.1, h.2.2 envAllOk "ceramic mugs" false⟩

end PinTool
